import Mathlib

/-
  Shallow embedding of the mpvipc IPC client crate:
  the dynamic-value JSON coercion layer (message_parser.rs),
  the typed property layer (property_parser.rs, event_property_parser.rs),
  the synchronous socket read loop (ipc.rs), and the response handling of
  the core API (core_api.rs, error.rs), together with proofs about them.
-/

namespace Mpvipc

/-- Opaque payload of a finite `f64`, identified by its bit pattern.
The crate never computes with doubles, it only moves them around,
so the payload is kept abstract as a bit pattern. -/
structure F64 where
  bits : Nat
deriving DecidableEq, Repr

/-- A JSON number as stored by serde_json: an unsigned 64-bit integer,
a strictly negative signed 64-bit integer, or a finite double.
`negInt m` stores the value `-(m+1)`, which is negative by construction. -/
inductive JNumber where
  | posInt (n : Nat)
  | negInt (m : Nat)
  | float (f : F64)
deriving DecidableEq, Repr

/-- The mathematical value of an integer-stored JSON number
(floats have no integer value here). -/
def JNumber.intValue : JNumber → Option Int
  | .posInt n => some (Int.ofNat n)
  | .negInt m => some (-(Int.ofNat m + 1))
  | .float _ => none

/-- Mirror of serde_json `Number::as_i64`: defined for negative integers and
for unsigned integers that fit in `i64`. -/
def JNumber.as_i64 : JNumber → Option Int
  | .posInt n => if n ≤ 9223372036854775807 then some (Int.ofNat n) else none
  | .negInt m => some (-(Int.ofNat m + 1))
  | .float _ => none

/-- Mirror of serde_json `Number::as_u64`: defined exactly for the
unsigned storage class. -/
def JNumber.as_u64 : JNumber → Option Nat
  | .posInt n => some n
  | _ => none

/-- Mirror of serde_json `Number::is_f64`: true exactly for the
float storage class (no coercion). -/
def JNumber.is_f64_stored : JNumber → Bool
  | .float _ => true
  | _ => false

/-- Payload of a float-stored number. -/
def JNumber.floatPayload : JNumber → Option F64
  | .float f => some f
  | _ => none

/-- A serde_json `Value`. Objects are association lists in insertion order
with unique keys (the serde_json `Map` discipline). -/
inductive Value where
  | null
  | bool (b : Bool)
  | number (n : JNumber)
  | str (s : String)
  | arr (xs : List Value)
  | obj (kvs : List (String × Value))
deriving Repr

/-- Mirror of serde_json `Map::get`: first binding of the key. -/
def mapGet (kvs : List (String × Value)) (key : String) : Option Value :=
  match kvs with
  | [] => none
  | (k, v) :: rest => if k == key then some v else mapGet rest key

/-- True exactly on JSON strings. -/
def Value.isString : Value → Bool
  | .str _ => true
  | _ => false

/-- True exactly on JSON booleans. -/
def Value.isBool : Value → Bool
  | .bool _ => true
  | _ => false

/-- A single entry in the mpv playlist (core_api.rs `PlaylistEntry`):
ordinal id, filename, title, current flag. -/
structure PlaylistEntry where
  id : Nat
  filename : String
  title : String
  current : Bool
deriving DecidableEq, Repr

/-- Generic data type representing all possible data types that mpv can
return (core_api.rs `MpvDataType`). Maps are association lists. -/
inductive MpvDataType where
  | array (xs : List MpvDataType)
  | bool (b : Bool)
  | double (f : F64)
  | hashMap (m : List (String × MpvDataType))
  | null
  | minusOne
  | playlist (entries : List PlaylistEntry)
  | str (s : String)
  | usize (n : Nat)
deriving Repr

/-- Mirror of `HashMap::get` on the association-list model of a map. -/
def hmGet (m : List (String × MpvDataType)) (key : String) : Option MpvDataType :=
  match m with
  | [] => none
  | (k, v) :: rest => if k == key then some v else hmGet rest key

/-- True exactly on string dynamic values. -/
def MpvDataType.isString : MpvDataType → Bool
  | .str _ => true
  | _ => false

/-- True exactly on boolean dynamic values. -/
def MpvDataType.isBool : MpvDataType → Bool
  | .bool _ => true
  | _ => false

/-- Any error that can occur when interacting with mpv (error.rs `MpvError`).
The `JsonParseError` payload is reduced to its message string and the
`UnexpectedProperty` payload is omitted: the variant is unused in the
functions embedded here. -/
inductive MpvError where
  | mpvError (command : List Value) (message : String)
  | mpvSocketConnectionError (s : String)
  | internalConnectionError (s : String)
  | jsonParseError (s : String)
  | valueContainsUnexpectedType (expectedType : String) (received : Value)
  | dataContainsUnexpectedType (expectedType : String) (received : MpvDataType)
  | missingMpvData
  | missingKeyInObject (key : String) (map : List (String × Value))
  | unexpectedProperty
  | other (s : String)
deriving Repr

namespace MessageParser

mutual

/-- Mirror of message_parser.rs `json_to_value`.
The number branch follows the source exactly: `is_i64 && as_i64 == -1`
first, then `is_u64`, then `is_f64`, else the unsupported-numeric error. -/
def json_to_value (value : Value) : Except MpvError MpvDataType :=
  match value with
  | .arr array =>
    match json_array_to_vec array with
    | .error e => .error e
    | .ok xs => .ok (.array xs)
  | .bool b => .ok (.bool b)
  | .number n =>
    if n.as_i64 = some (-1) then
      .ok .minusOne
    else
      match n.as_u64 with
      | some u => .ok (.usize u)
      | none =>
        match n.floatPayload with
        | some f => .ok (.double f)
        | none => .error (.valueContainsUnexpectedType "i64, u64, or f64" (.number n))
  | .obj map =>
    match json_map_to_hashmap map with
    | .error e => .error e
    | .ok m => .ok (.hashMap m)
  | .str s => .ok (.str s)
  | .null => .ok .null

def json_array_to_vec (array : List Value) : Except MpvError (List MpvDataType) :=
  match array with
  | [] => .ok []
  | v :: vs =>
    match json_to_value v with
    | .error e => .error e
    | .ok x =>
      match json_array_to_vec vs with
      | .error e => .error e
      | .ok xs => .ok (x :: xs)

def json_map_to_hashmap (map : List (String × Value)) :
    Except MpvError (List (String × MpvDataType)) :=
  match map with
  | [] => .ok []
  | (k, v) :: rest =>
    match json_to_value v with
    | .error e => .error e
    | .ok x =>
      match json_map_to_hashmap rest with
      | .error e => .error e
      | .ok m => .ok ((k, x) :: m)

end

/-- Mirror of message_parser.rs `json_map_to_playlist_entry`: `filename`,
`title` and `current` are all looked up, and a missing one returns
`MissingMpvData` (the entry id is initialized to 0). -/
def json_map_to_playlist_entry (map : List (String × Value)) :
    Except MpvError PlaylistEntry :=
  match mapGet map "filename" with
  | some (.str filename) =>
    match mapGet map "title" with
    | some (.str title) =>
      match mapGet map "current" with
      | some (.bool current) => .ok (PlaylistEntry.mk 0 filename title current)
      | some data => .error (.valueContainsUnexpectedType "bool" data)
      | none => .error .missingMpvData
    | some data => .error (.valueContainsUnexpectedType "String" data)
    | none => .error .missingMpvData
  | some data => .error (.valueContainsUnexpectedType "String" data)
  | none => .error .missingMpvData

/-- Mirror of the element conversion inside message_parser.rs
`json_array_to_playlist`: a non-object element is a type error. -/
def playlist_elem (entry : Value) : Except MpvError PlaylistEntry :=
  match entry with
  | .obj map => json_map_to_playlist_entry map
  | data => .error (.valueContainsUnexpectedType "Map<String, Value>" data)

/-- Index-passing rendering of `.enumerate().map(set id)` in
message_parser.rs `json_array_to_playlist`. -/
def json_array_to_playlist_from (i : Nat) (array : List Value) :
    Except MpvError (List PlaylistEntry) :=
  match array with
  | [] => .ok []
  | v :: vs =>
    match playlist_elem v with
    | .error e => .error e
    | .ok entry =>
      match json_array_to_playlist_from (i + 1) vs with
      | .error e => .error e
      | .ok rest => .ok (PlaylistEntry.mk i entry.filename entry.title entry.current :: rest)

/-- Mirror of message_parser.rs `json_array_to_playlist`: convert each
element, then overwrite each id with the element's zero-based position. -/
def json_array_to_playlist (array : List Value) : Except MpvError (List PlaylistEntry) :=
  json_array_to_playlist_from 0 array

end MessageParser

namespace PropertyParser

/-- Playlist entry as built by property_parser.rs `mpv_data_to_playlist_entry`:
the title is optional there. -/
structure PlaylistEntry where
  id : Nat
  filename : String
  title : Option String
  current : Bool
deriving DecidableEq, Repr

/-- Loop state of a property (property_parser.rs `LoopProperty`). -/
inductive LoopProperty where
  | n (k : Nat)
  | inf
  | no
deriving DecidableEq, Repr

/-- An incomplete list of properties that mpv can return
(property_parser.rs `Property`). -/
inductive Property where
  | path (p : Option String)
  | pause (b : Bool)
  | playbackTime (t : Option F64)
  | duration (d : Option F64)
  | metadata (m : Option (List (String × MpvDataType)))
  | playlist (entries : List PlaylistEntry)
  | playlistPos (p : Option Nat)
  | loopFile (l : LoopProperty)
  | loopPlaylist (l : LoopProperty)
  | timePos (t : Option F64)
  | timeRemaining (t : Option F64)
  | speed (s : F64)
  | volume (v : F64)
  | mute (b : Bool)
  | eofReached (b : Bool)
  | unknown (name : String) (data : Option MpvDataType)
deriving Repr

/-- Mirror of property_parser.rs `mpv_data_to_playlist_entry`: `filename` is
required (missing gives `MissingMpvData`), a missing `title` becomes `none`,
and a missing `current` defaults to `false`. -/
def mpv_data_to_playlist_entry (map : List (String × MpvDataType)) :
    Except MpvError PlaylistEntry :=
  match hmGet map "filename" with
  | some (.str filename) =>
    match hmGet map "title" with
    | some (.str t) => withTitle filename (some t) map
    | some data => .error (.dataContainsUnexpectedType "String" data)
    | none => withTitle filename none map
  | some data => .error (.dataContainsUnexpectedType "String" data)
  | none => .error .missingMpvData
where
  withTitle (filename : String) (title : Option String)
      (map : List (String × MpvDataType)) : Except MpvError PlaylistEntry :=
    match hmGet map "current" with
    | some (.bool current) => .ok (PlaylistEntry.mk 0 filename title current)
    | some data => .error (.dataContainsUnexpectedType "bool" data)
    | none => .ok (PlaylistEntry.mk 0 filename title false)

/-- Mirror of the element conversion inside property_parser.rs
`mpv_array_to_playlist`: a non-map element is a type error. -/
def playlist_elem (value : MpvDataType) : Except MpvError PlaylistEntry :=
  match value with
  | .hashMap map => mpv_data_to_playlist_entry map
  | v => .error (.dataContainsUnexpectedType "HashMap" v)

/-- Index-passing rendering of `.enumerate().map(set id)` in
property_parser.rs `mpv_array_to_playlist`. -/
def mpv_array_to_playlist_from (i : Nat) (array : List MpvDataType) :
    Except MpvError (List PlaylistEntry) :=
  match array with
  | [] => .ok []
  | v :: vs =>
    match playlist_elem v with
    | .error e => .error e
    | .ok entry =>
      match mpv_array_to_playlist_from (i + 1) vs with
      | .error e => .error e
      | .ok rest => .ok (PlaylistEntry.mk i entry.filename entry.title entry.current :: rest)

/-- Mirror of property_parser.rs `mpv_array_to_playlist`. -/
def mpv_array_to_playlist (array : List MpvDataType) :
    Except MpvError (List PlaylistEntry) :=
  mpv_array_to_playlist_from 0 array

/-- Mirror of the shared loop-state decoding in the `loop-file` and
`loop-playlist` branches of property_parser.rs `parse_property`. -/
def loop_of_data (data : Option MpvDataType) : Except MpvError LoopProperty :=
  let attempt : Option LoopProperty :=
    match data with
    | some (.usize n) => some (.n n)
    | some (.bool b) => if b then some .inf else some .no
    | some (.str s) => if s == "inf" then some .inf else none
    | _ => none
  match attempt with
  | some l => .ok l
  | none =>
    match data with
    | some d => .error (.dataContainsUnexpectedType "\x27inf\x27, bool, or usize" d)
    | none => .error .missingMpvData

/-- Mirror of property_parser.rs `parse_property`: decode the `data` payload
of a named property into a typed `Property`. -/
def parse_property (name : String) (data : Option MpvDataType) :
    Except MpvError Property :=
  if name == "path" then
    match data with
    | some (.str s) => .ok (.path (some s))
    | some .null => .ok (.path none)
    | some d => .error (.dataContainsUnexpectedType "String" d)
    | none => .error .missingMpvData
  else if name == "pause" then
    match data with
    | some (.bool b) => .ok (.pause b)
    | some d => .error (.dataContainsUnexpectedType "bool" d)
    | none => .error .missingMpvData
  else if name == "playback-time" then
    match data with
    | some (.double d) => .ok (.playbackTime (some d))
    | none => .ok (.playbackTime none)
    | some .null => .ok (.playbackTime none)
    | some d => .error (.dataContainsUnexpectedType "f64" d)
  else if name == "duration" then
    match data with
    | some (.double d) => .ok (.duration (some d))
    | none => .ok (.duration none)
    | some .null => .ok (.duration none)
    | some d => .error (.dataContainsUnexpectedType "f64" d)
  else if name == "metadata" then
    match data with
    | some (.hashMap m) => .ok (.metadata (some m))
    | none => .ok (.metadata none)
    | some .null => .ok (.metadata none)
    | some d => .error (.dataContainsUnexpectedType "HashMap" d)
  else if name == "playlist" then
    match data with
    | some (.array a) =>
      match mpv_array_to_playlist a with
      | .ok entries => .ok (.playlist entries)
      | .error e => .error e
    | none => .ok (.playlist [])
    | some d => .error (.dataContainsUnexpectedType "Array" d)
  else if name == "playlist-pos" then
    match data with
    | some (.usize u) => .ok (.playlistPos (some u))
    | some .minusOne => .ok (.playlistPos none)
    | some .null => .ok (.playlistPos none)
    | none => .ok (.playlistPos none)
    | some d => .error (.dataContainsUnexpectedType "usize or -1" d)
  else if name == "loop-file" then
    match loop_of_data data with
    | .ok l => .ok (.loopFile l)
    | .error e => .error e
  else if name == "loop-playlist" then
    match loop_of_data data with
    | .ok l => .ok (.loopPlaylist l)
    | .error e => .error e
  else if name == "time-pos" then
    match data with
    | some (.double d) => .ok (.timePos (some d))
    | some d => .error (.dataContainsUnexpectedType "f64" d)
    | none => .ok (.timePos none)
  else if name == "time-remaining" then
    match data with
    | some (.double d) => .ok (.timeRemaining (some d))
    | some d => .error (.dataContainsUnexpectedType "f64" d)
    | none => .ok (.timeRemaining none)
  else if name == "speed" then
    match data with
    | some (.double d) => .ok (.speed d)
    | some d => .error (.dataContainsUnexpectedType "f64" d)
    | none => .error .missingMpvData
  else if name == "volume" then
    match data with
    | some (.double d) => .ok (.volume d)
    | some d => .error (.dataContainsUnexpectedType "f64" d)
    | none => .error .missingMpvData
  else if name == "mute" then
    match data with
    | some (.bool b) => .ok (.mute b)
    | some d => .error (.dataContainsUnexpectedType "bool" d)
    | none => .error .missingMpvData
  else if name == "eof-reached" then
    match data with
    | some (.bool b) => .ok (.eofReached b)
    | some d => .error (.dataContainsUnexpectedType "bool" d)
    | none => .ok (.eofReached true)
  else
    .ok (.unknown name data)

end PropertyParser

/-- Reason behind the end-file event (event_parser.rs `EventEndFileReason`). -/
inductive EventEndFileReason where
  | eof
  | stop
  | quit
  | error
  | redirect
  | unknown
  | unimplemented (s : String)
deriving DecidableEq, Repr

/-- Log level of a log-message event (event_parser.rs `EventLogMessageLevel`). -/
inductive EventLogMessageLevel where
  | info
  | warn
  | error
  | fatal
  | verbose
  | debug
  | trace
  | unimplemented (s : String)
deriving DecidableEq, Repr

/-- All possible events that can be sent by mpv (event_parser.rs `Event`).
The log-message prefix field is named `pfx` because its source name is a
Lean keyword. -/
inductive Event where
  | startFile (playlist_entry_id : Nat)
  | endFile (reason : EventEndFileReason) (playlist_entry_id : Nat)
      (file_error : Option String) (playlist_insert_id : Option Nat)
      (playlist_insert_num_entries : Option Nat)
  | fileLoaded
  | seek
  | playbackRestart
  | shutdown
  | logMessage (pfx : String) (level : EventLogMessageLevel) (text : String)
  | hook (hook_id : Nat)
  | getPropertyReply
  | setPropertyReply
  | commandReply (result : String)
  | clientMessage (args : List String)
  | videoReconfig
  | audioReconfig
  | propertyChange (id : Option Nat) (name : String) (data : Option MpvDataType)
  | eventQueueOverflow
  | none
  | idle
  | tick
  | tracksChanged
  | trackSwitched
  | pause
  | unpause
  | metadataUpdate
  | chapterChange
  | scriptInputDispatch
  | unimplemented (kvs : List (String × Value))
deriving Repr

/-- True exactly on the property-change variant of `Event`. -/
def Event.isPropertyChange : Event → Bool
  | .propertyChange _ _ _ => true
  | _ => false

/-- Outcome of running a Rust function that may panic: either a panic with
its message, or the value the function returns. -/
inductive PanicOr (α : Type) where
  | panicked (msg : String)
  | value (a : α)
deriving Repr

/-- True exactly when the outcome is a panic. -/
def PanicOr.isPanicked {α : Type} : PanicOr α → Bool
  | .panicked _ => true
  | .value _ => false

namespace EventPropertyParser

/-- Loop state of a property (event_property_parser.rs `LoopProperty`). -/
inductive LoopProperty where
  | n (k : Nat)
  | inf
  | no
deriving DecidableEq, Repr

/-- All possible properties observable through the event system
(event_property_parser.rs `Property`). -/
inductive Property where
  | path (p : Option String)
  | pause (b : Bool)
  | playbackTime (t : Option F64)
  | duration (d : Option F64)
  | metadata (m : Option (List (String × MpvDataType)))
  | playlist (entries : List PlaylistEntry)
  | playlistPos (p : Option Nat)
  | loopFile (l : LoopProperty)
  | loopPlaylist (l : LoopProperty)
  | speed (s : F64)
  | volume (v : F64)
  | mute (b : Bool)
  | unknown (name : String) (data : Option MpvDataType)
deriving Repr

/-- Mirror of event_property_parser.rs `mpv_data_to_playlist_entry`: here
`filename`, `title` and `current` are all required, each missing one
giving `MissingMpvData`. -/
def mpv_data_to_playlist_entry (map : List (String × MpvDataType)) :
    Except MpvError PlaylistEntry :=
  match hmGet map "filename" with
  | some (.str filename) =>
    match hmGet map "title" with
    | some (.str title) =>
      match hmGet map "current" with
      | some (.bool current) => .ok (PlaylistEntry.mk 0 filename title current)
      | some data => .error (.dataContainsUnexpectedType "bool" data)
      | none => .error .missingMpvData
    | some data => .error (.dataContainsUnexpectedType "String" data)
    | none => .error .missingMpvData
  | some data => .error (.dataContainsUnexpectedType "String" data)
  | none => .error .missingMpvData

/-- Mirror of the element conversion inside event_property_parser.rs
`mpv_array_to_playlist`. -/
def playlist_elem (value : MpvDataType) : Except MpvError PlaylistEntry :=
  match value with
  | .hashMap map => mpv_data_to_playlist_entry map
  | v => .error (.dataContainsUnexpectedType "HashMap" v)

/-- Index-passing rendering of `.enumerate().map(set id)` in
event_property_parser.rs `mpv_array_to_playlist`. -/
def mpv_array_to_playlist_from (i : Nat) (array : List MpvDataType) :
    Except MpvError (List PlaylistEntry) :=
  match array with
  | [] => .ok []
  | v :: vs =>
    match playlist_elem v with
    | .error e => .error e
    | .ok entry =>
      match mpv_array_to_playlist_from (i + 1) vs with
      | .error e => .error e
      | .ok rest => .ok (PlaylistEntry.mk i entry.filename entry.title entry.current :: rest)

/-- Mirror of event_property_parser.rs `mpv_array_to_playlist`. -/
def mpv_array_to_playlist (array : List MpvDataType) :
    Except MpvError (List PlaylistEntry) :=
  mpv_array_to_playlist_from 0 array

/-- Mirror of the shared loop-state decoding in the `loop-file` and
`loop-playlist` branches of event_property_parser.rs `parse_event_property`. -/
def loop_of_data (data : Option MpvDataType) : Except MpvError LoopProperty :=
  let attempt : Option LoopProperty :=
    match data with
    | some (.usize n) => some (.n n)
    | some (.bool b) => if b then some .inf else some .no
    | some (.str s) => if s == "inf" then some .inf else none
    | _ => none
  match attempt with
  | some l => .ok l
  | none =>
    match data with
    | some d => .error (.dataContainsUnexpectedType "\x27inf\x27, bool, or usize" d)
    | none => .error .missingMpvData

/-- Mirror of the name dispatch inside event_property_parser.rs
`parse_event_property`, reached only for property-change events. -/
def parse_property_change (id : Option Nat) (name : String)
    (data : Option MpvDataType) : Except MpvError (Option Nat × Property) :=
  if name == "path" then
    match data with
    | some (.str s) => .ok (id, .path (some s))
    | some .null => .ok (id, .path none)
    | some d => .error (.dataContainsUnexpectedType "String" d)
    | none => .error .missingMpvData
  else if name == "pause" then
    match data with
    | some (.bool b) => .ok (id, .pause b)
    | some d => .error (.dataContainsUnexpectedType "bool" d)
    | none => .error .missingMpvData
  else if name == "playback-time" then
    match data with
    | some (.double d) => .ok (id, .playbackTime (some d))
    | none => .ok (id, .playbackTime none)
    | some .null => .ok (id, .playbackTime none)
    | some d => .error (.dataContainsUnexpectedType "f64" d)
  else if name == "duration" then
    match data with
    | some (.double d) => .ok (id, .duration (some d))
    | none => .ok (id, .duration none)
    | some .null => .ok (id, .duration none)
    | some d => .error (.dataContainsUnexpectedType "f64" d)
  else if name == "metadata" then
    match data with
    | some (.hashMap m) => .ok (id, .metadata (some m))
    | none => .ok (id, .metadata none)
    | some .null => .ok (id, .metadata none)
    | some d => .error (.dataContainsUnexpectedType "HashMap" d)
  else if name == "playlist" then
    match data with
    | some (.array a) =>
      match mpv_array_to_playlist a with
      | .ok entries => .ok (id, .playlist entries)
      | .error e => .error e
    | none => .ok (id, .playlist [])
    | some d => .error (.dataContainsUnexpectedType "Array" d)
  else if name == "playlist-pos" then
    match data with
    | some (.usize u) => .ok (id, .playlistPos (some u))
    | some .minusOne => .ok (id, .playlistPos none)
    | some .null => .ok (id, .playlistPos none)
    | none => .ok (id, .playlistPos none)
    | some d => .error (.dataContainsUnexpectedType "usize or -1" d)
  else if name == "loop-file" then
    match loop_of_data data with
    | .ok l => .ok (id, .loopFile l)
    | .error e => .error e
  else if name == "loop-playlist" then
    match loop_of_data data with
    | .ok l => .ok (id, .loopPlaylist l)
    | .error e => .error e
  else if name == "speed" then
    match data with
    | some (.double d) => .ok (id, .speed d)
    | some d => .error (.dataContainsUnexpectedType "f64" d)
    | none => .error .missingMpvData
  else if name == "volume" then
    match data with
    | some (.double d) => .ok (id, .volume d)
    | some d => .error (.dataContainsUnexpectedType "f64" d)
    | none => .error .missingMpvData
  else if name == "mute" then
    match data with
    | some (.bool b) => .ok (id, .mute b)
    | some d => .error (.dataContainsUnexpectedType "bool" d)
    | none => .error .missingMpvData
  else
    .ok (id, .unknown name data)

/-- Mirror of event_property_parser.rs `parse_event_property`: any event
that is not a property change hits the wildcard arm and panics. -/
def parse_event_property (event : Event) :
    PanicOr (Except MpvError (Option Nat × Property)) :=
  match event with
  | .propertyChange id name data => .value (parse_property_change id name data)
  | _ => .panicked "Event is not a PropertyChange event"

end EventPropertyParser

namespace Ipc

/-- Whether `pat` occurs at the start of `hay` (character lists). -/
def startsWithChars : List Char → List Char → Bool
  | [], _ => true
  | _ :: _, [] => false
  | a :: as, b :: bs => a == b && startsWithChars as bs

/-- Whether `pat` occurs anywhere inside `hay` (character lists). -/
def hasSubChars (pat : List Char) : List Char → Bool
  | [] => startsWithChars pat []
  | b :: bs => startsWithChars pat (b :: bs) || hasSubChars pat bs

/-- Mirror of Rust `str::contains` restricted to a literal pattern. -/
def strContainsSub (hay pat : String) : Bool :=
  hasSubChars pat.toList hay.toList

/-- Mirror of the loop condition in ipc.rs `send_command_sync`:
the response accumulator is kept only once it contains `"error":`. -/
def containsErrorKey (line : String) : Bool :=
  strContainsSub line "\"error\":"

/-- Mirror of the read loop in ipc.rs `send_command_sync`: after writing the
command, lines are read one at a time; every line that does not contain the
substring `"error":` is cleared (discarded) and reading continues; the first
line that does contain it is returned as the response. The result pairs the
discarded lines, in order, with that response; `none` models the loop
spinning forever because the stream ran out of lines. -/
def send_command_sync_reads : List String → Option (List String × String)
  | [] => Option.none
  | l :: ls =>
    if containsErrorKey l then some ([], l)
    else
      match send_command_sync_reads ls with
      | some (dropped, resp) => some (l :: dropped, resp)
      | Option.none => Option.none

/-- Spec-side predicate: a wire line carrying an event, recognized by its
`"event"` key (spec section 4.2: a parseable line with an event key is an
event and must be published). -/
def isEventLine (line : String) : Bool :=
  strContainsSub line "\"event\""

end Ipc

namespace CoreApi

/-- Modelled from the spec: the asynchronous IPC actor (`MpvIpc`) referenced
by core_api.rs is not present under src/. Spec section 4.2 (b): the first
non-event line after a command is the response, a JSON object with an
`error` string field; `success` makes the optional `data` field the payload,
`property unavailable` is success-with-no-value, and any other string fails
the command with a protocol-rejection error carrying the original command
and that message verbatim (error.rs `MpvError::MpvError`). -/
def classify_response (command : List Value) (resp : Value) :
    Except MpvError (Option Value) :=
  match resp with
  | .obj kvs =>
    match mapGet kvs "error" with
    | some (.str s) =>
      if s == "success" then .ok (mapGet kvs "data")
      else if s == "property unavailable" then .ok Option.none
      else .error (.mpvError command s)
    | _ => .error (.jsonParseError "response has no error string field")
  | _ => .error (.jsonParseError "response is not an object")

/-- Mirror of the reply handling in core_api.rs `Mpv::get_property_value`
(the `Ok(MpvIpcResponse(response))` arm): the actor reply of type
`Result<Option<Value>, MpvError>` is post-processed with
`response.and_then(|value| value.ok_or(MpvError::MissingMpvData))`. -/
def get_property_value_of_reply (response : Except MpvError (Option Value)) :
    Except MpvError Value :=
  match response with
  | .error e => .error e
  | .ok (some value) => .ok value
  | .ok Option.none => .error .missingMpvData

/-- Commands sent from the `Mpv` handle to the IPC actor
(`MpvIpcCommand`, declared by its users in core_api.rs). -/
inductive MpvIpcCommand where
  | command (args : List String)
  | getProperty (name : String)
  | setProperty (name : String) (value : Value)
  | observeProperty (id : Nat) (name : String)
  | unobserveProperty (id : Nat)
  | exit
deriving Repr

/-- True exactly on the `Exit` command. -/
def MpvIpcCommand.isExit : MpvIpcCommand → Bool
  | .exit => true
  | _ => false

/-- Modelled from the spec: the actor loop (`MpvIpc::run`) is not present
under src/. Spec sections 4.2 and 4.3: the actor serves one queued command
per iteration; on `Exit` it fulfills that command's reply slot with
success-of-nothing and returns, dropping the socket and the broadcast
sender; once the actor has returned, the shared queue is closed, so every
later enqueue from any handle clone fails with an internal connection
error. `io` gives the transport's reply to each command served while the
actor is still running. The function returns the reply delivered for each
command in queue order, paired with whether the actor is still running
(its broadcast sender still alive) afterwards. -/
def runActor (io : MpvIpcCommand → Except MpvError (Option Value)) :
    Bool → List MpvIpcCommand → List (Except MpvError (Option Value)) × Bool
  | alive, [] => ([], alive)
  | false, _ :: cmds =>
    let rest := runActor io false cmds
    (.error (.internalConnectionError "channel closed") :: rest.1, rest.2)
  | true, cmd :: cmds =>
    if cmd.isExit then
      let rest := runActor io false cmds
      (.ok Option.none :: rest.1, rest.2)
    else
      let rest := runActor io true cmds
      (io cmd :: rest.1, rest.2)

/-- Replies delivered for a queue of commands submitted to a freshly
started actor. -/
def actorReplies (io : MpvIpcCommand → Except MpvError (Option Value))
    (cmds : List MpvIpcCommand) : List (Except MpvError (Option Value)) :=
  (runActor io true cmds).1

/-- Whether the actor is still running (and with it the event broadcast
sender, whose drop subscribers observe as their stream ending) after a
queue of commands. -/
def actorAliveAfter (io : MpvIpcCommand → Except MpvError (Option Value))
    (cmds : List MpvIpcCommand) : Bool :=
  (runActor io true cmds).2

end CoreApi

/-- True exactly when an `Except` result is a success. -/
def isOkE {α : Type} : Except MpvError α → Bool
  | .ok _ => true
  | .error _ => false

mutual

/-- True when a JSON value contains no number anywhere. -/
def numberFree : Value → Bool
  | .null => true
  | .bool _ => true
  | .str _ => true
  | .number _ => false
  | .arr xs => numberFreeList xs
  | .obj kvs => numberFreeKVs kvs

/-- List version of `numberFree`. -/
def numberFreeList : List Value → Bool
  | [] => true
  | v :: vs => numberFree v && numberFreeList vs

/-- Association-list version of `numberFree`. -/
def numberFreeKVs : List (String × Value) → Bool
  | [] => true
  | (_, v) :: rest => numberFree v && numberFreeKVs rest

end

/-- Spec-side predicate following the words of claim C4 and spec section
4.1: a JSON number is decodable when it is representable as an unsigned
64-bit integer, or is exactly -1, or is representable as a finite double.
Every integer of magnitude at most 2^53 is exactly representable as a
finite double. -/
def specNumberDecodable : JNumber → Bool
  | .posInt _ => true
  | .negInt m => m == 0 || decide (m + 1 ≤ 9007199254740992)
  | .float _ => true

/-- Spec-side predicate for claim C7: the JSON scalars that correspond to a
scalar dynamic value (Bool, String, Double, Null, NegativeOne). -/
def isScalarRepresentable : Value → Bool
  | .bool _ => true
  | .str _ => true
  | .null => true
  | .number (.float _) => true
  | .number (.negInt 0) => true
  | _ => false

/-- Modelled from the spec: the crate has no dynamic-value-to-JSON encoder
under src/ (outgoing values are serialized before entering the dynamic
model), so the re-encoding direction of the round-trip law of spec
sections 4.1 and 8 is modelled from its words: Bool to JSON bool, String
to JSON string, Double to a float-stored JSON number, Null to JSON null,
and the NegativeOne sentinel to the JSON number -1. -/
def encode_scalar : MpvDataType → Option Value
  | .bool b => some (.bool b)
  | .str s => some (.str s)
  | .double f => some (.number (.float f))
  | .null => some .null
  | .minusOne => some (.number (.negInt 0))
  | _ => Option.none

/-- C1: a get_property call answered on the wire by a JSON object whose
error field is exactly "property unavailable" (and no data field) does
not return success-with-absent-value: the spec-modelled actor reply is
indeed `Ok(None)`, but `Mpv::get_property_value` post-processes it with
`value.ok_or(MpvError::MissingMpvData)`, so the call returns the
`MissingMpvData` error, contradicting the claim (and the repository's own
mock-socket test, which asserts `Ok(None)`). -/
theorem get_property_unavailable_is_error :
    CoreApi.classify_response [Value.str "get_property", Value.str "volume"]
      (Value.obj [("error", Value.str "property unavailable"),
        ("request_id", Value.number (JNumber.posInt 0))]) = .ok Option.none
    ∧ CoreApi.get_property_value_of_reply
      (CoreApi.classify_response [Value.str "get_property", Value.str "volume"]
        (Value.obj [("error", Value.str "property unavailable"),
          ("request_id", Value.number (JNumber.posInt 0))]))
      = .error .missingMpvData := by
  exact ⟨rfl, rfl⟩

/-- C9: `parse_event_property` panics on exactly the events that are not
property-change events; it returns a `Result` value only for the
property-change variant. -/
theorem parse_event_property_panics_iff_not_property_change (e : Event) :
    (EventPropertyParser.parse_event_property e).isPanicked = !e.isPropertyChange := by
  cases e <;> rfl

/-- C10: `parse_property` with name "eof-reached" and absent data returns
`Ok(EofReached(true))`, silently defaulting the missing value to true,
while the other boolean properties "pause" and "mute" report absent data
as the `MissingMpvData` error. -/
theorem eof_reached_missing_data_defaults_true :
    PropertyParser.parse_property "eof-reached" Option.none
      = .ok (.eofReached true)
    ∧ PropertyParser.parse_property "pause" Option.none
      = .error .missingMpvData
    ∧ PropertyParser.parse_property "mute" Option.none
      = .error .missingMpvData := by
  exact ⟨rfl, rfl, rfl⟩

/-- C2 counterexample: an event line arriving on the socket while a
command is in flight is read by the `send_command_sync` wait loop and
discarded, not published: with the wire carrying the event line
followed by the response line, the loop returns the response and the
event line is in the discarded list (the synchronous client has no
broadcast channel at all), refuting the claim that no event line read
during the wait is ever discarded. -/
theorem event_line_discarded_during_command_wait :
    Ipc.send_command_sync_reads
      ["\x7b\"event\":\"pause\"\x7d", "\x7b\"error\":\"success\"\x7d"]
      = some (["\x7b\"event\":\"pause\"\x7d"], "\x7b\"error\":\"success\"\x7d")
    ∧ Ipc.isEventLine "\x7b\"event\":\"pause\"\x7d" = true := by
  exact ⟨rfl, rfl⟩

/-- C2 amended: every line read while a command is in flight that does not
contain the substring `"error":` is discarded unexamined, event lines
included; the first line containing that substring is returned as the
command's response. Nothing read during the wait is published. -/
theorem send_command_sync_discards_all_nonresponse_lines
    (lines dropped : List String) (resp : String)
    (h : Ipc.send_command_sync_reads lines = some (dropped, resp)) :
    (∀ l ∈ dropped, Ipc.containsErrorKey l = false)
    ∧ Ipc.containsErrorKey resp = true
    ∧ ∃ rest, lines = dropped ++ resp :: rest := by
  induction lines generalizing dropped resp with
  | nil => simp [Ipc.send_command_sync_reads] at h
  | cons l ls ih =>
    rw [Ipc.send_command_sync_reads] at h
    by_cases hl : Ipc.containsErrorKey l = true
    · rw [if_pos hl] at h
      injection h with h'
      injection h' with h1 h2
      subst h1
      subst h2
      refine ⟨?_, hl, ls, rfl⟩
      intro x hx
      cases hx
    · rw [if_neg hl] at h
      cases hrec : Ipc.send_command_sync_reads ls with
      | none => rw [hrec] at h; cases h
      | some pr =>
        obtain ⟨d, r⟩ := pr
        rw [hrec] at h
        injection h with h'
        injection h' with h1 h2
        subst h2
        subst h1
        obtain ⟨hdrop, hresp, rest, hrest⟩ := ih d r hrec
        refine ⟨?_, hresp, rest, by simp [hrest]⟩
        intro x hx
        cases hx with
        | head => simpa using hl
        | tail _ hx' => exact hdrop x hx'

/-- C2 witness: the amended statement applied on a concrete wire trace of
one non-response line followed by the response line. -/
theorem send_command_sync_discards_witness :
    Ipc.send_command_sync_reads
      ["\x7b\"event\":\"seek\"\x7d", "\x7b\"error\":\"success\"\x7d"]
      = some (["\x7b\"event\":\"seek\"\x7d"], "\x7b\"error\":\"success\"\x7d")
    ∧ Ipc.containsErrorKey "\x7b\"error\":\"success\"\x7d" = true :=
  ⟨rfl,
    (send_command_sync_discards_all_nonresponse_lines
      ["\x7b\"event\":\"seek\"\x7d", "\x7b\"error\":\"success\"\x7d"]
      ["\x7b\"event\":\"seek\"\x7d"] "\x7b\"error\":\"success\"\x7d" rfl).2.1⟩

/-- C3: any response object whose error string is neither "success" nor
"property unavailable" fails the command with the protocol-rejection
error `MpvError::MpvError` carrying the original command and the wire's
message verbatim. -/
theorem other_error_string_rejects_command_verbatim
    (command : List Value) (kvs : List (String × Value)) (msg : String)
    (herr : mapGet kvs "error" = some (.str msg))
    (h1 : msg ≠ "success") (h2 : msg ≠ "property unavailable") :
    CoreApi.classify_response command (.obj kvs)
      = .error (.mpvError command msg) := by
  rw [CoreApi.classify_response, herr]
  dsimp only
  rw [if_neg (by simpa using h1), if_neg (by simpa using h2)]

/-- C3 witness: the response object with error string "property not found"
yields the rejection error whose message is exactly "property not found". -/
theorem property_not_found_rejection_witness :
    CoreApi.classify_response
      [Value.str "set_property", Value.str "nonexistent", Value.bool true]
      (Value.obj [("request_id", Value.number (JNumber.posInt 0)),
        ("error", Value.str "property not found")])
      = .error (.mpvError
          [Value.str "set_property", Value.str "nonexistent", Value.bool true]
          "property not found") :=
  other_error_string_rejects_command_verbatim
    [Value.str "set_property", Value.str "nonexistent", Value.bool true]
    [("request_id", Value.number (JNumber.posInt 0)),
      ("error", Value.str "property not found")]
    "property not found" rfl (by decide) (by decide)

/-- C5 counterexample: in property_parser.rs, a playlist element map
lacking the "current" field does not fail with a missing-field error; the
entry is produced with `current` silently defaulted to false. (In
message_parser.rs, symmetrically, a map lacking "title" fails even though
the claim calls "title" optional.) -/
theorem missing_current_defaults_false_not_error :
    PropertyParser.mpv_data_to_playlist_entry
      [("filename", MpvDataType.str "file1"), ("title", MpvDataType.str "title1")]
      = .ok (PropertyParser.PlaylistEntry.mk 0 "file1" (some "title1") false)
    ∧ MessageParser.json_map_to_playlist_entry
      [("filename", Value.str "file1"), ("current", Value.bool true)]
      = .error .missingMpvData := by
  exact ⟨rfl, rfl⟩

/-- C5 amended: in the JSON-level parser (message_parser.rs) all three of
filename, title and current are required and any missing one fails with
the MissingMpvData error; in the dynamic-value parser (property_parser.rs)
only filename is required (missing fails with MissingMpvData), a missing
title decodes to None, and a missing current silently defaults to false;
in both parsers a present field of the wrong type fails with the
type-mismatch error naming the expected type and the offending value. -/
theorem playlist_entry_required_fields_characterization :
    (∀ m, mapGet m "filename" = Option.none →
      MessageParser.json_map_to_playlist_entry m = .error .missingMpvData)
    ∧ (∀ m v, mapGet m "filename" = some v → v.isString = false →
      MessageParser.json_map_to_playlist_entry m
        = .error (.valueContainsUnexpectedType "String" v))
    ∧ (∀ m fn, mapGet m "filename" = some (.str fn) →
      mapGet m "title" = Option.none →
      MessageParser.json_map_to_playlist_entry m = .error .missingMpvData)
    ∧ (∀ m fn v, mapGet m "filename" = some (.str fn) →
      mapGet m "title" = some v → v.isString = false →
      MessageParser.json_map_to_playlist_entry m
        = .error (.valueContainsUnexpectedType "String" v))
    ∧ (∀ m fn t, mapGet m "filename" = some (.str fn) →
      mapGet m "title" = some (.str t) →
      mapGet m "current" = Option.none →
      MessageParser.json_map_to_playlist_entry m = .error .missingMpvData)
    ∧ (∀ m fn t v, mapGet m "filename" = some (.str fn) →
      mapGet m "title" = some (.str t) →
      mapGet m "current" = some v → v.isBool = false →
      MessageParser.json_map_to_playlist_entry m
        = .error (.valueContainsUnexpectedType "bool" v))
    ∧ (∀ m, hmGet m "filename" = Option.none →
      PropertyParser.mpv_data_to_playlist_entry m = .error .missingMpvData)
    ∧ (∀ m v, hmGet m "filename" = some v → v.isString = false →
      PropertyParser.mpv_data_to_playlist_entry m
        = .error (.dataContainsUnexpectedType "String" v))
    ∧ (∀ m fn v, hmGet m "filename" = some (.str fn) →
      hmGet m "title" = some v → v.isString = false →
      PropertyParser.mpv_data_to_playlist_entry m
        = .error (.dataContainsUnexpectedType "String" v))
    ∧ (∀ m fn t v, hmGet m "filename" = some (.str fn) →
      hmGet m "title" = some (.str t) →
      hmGet m "current" = some v → v.isBool = false →
      PropertyParser.mpv_data_to_playlist_entry m
        = .error (.dataContainsUnexpectedType "bool" v))
    ∧ (∀ m fn v, hmGet m "filename" = some (.str fn) →
      hmGet m "title" = Option.none →
      hmGet m "current" = some v → v.isBool = false →
      PropertyParser.mpv_data_to_playlist_entry m
        = .error (.dataContainsUnexpectedType "bool" v))
    ∧ (∀ m fn t, hmGet m "filename" = some (.str fn) →
      hmGet m "title" = some (.str t) →
      hmGet m "current" = Option.none →
      PropertyParser.mpv_data_to_playlist_entry m
        = .ok (PropertyParser.PlaylistEntry.mk 0 fn (some t) false))
    ∧ (∀ m fn c, hmGet m "filename" = some (.str fn) →
      hmGet m "title" = Option.none →
      hmGet m "current" = some (.bool c) →
      PropertyParser.mpv_data_to_playlist_entry m
        = .ok (PropertyParser.PlaylistEntry.mk 0 fn Option.none c))
    ∧ (∀ m fn, hmGet m "filename" = some (.str fn) →
      hmGet m "title" = Option.none →
      hmGet m "current" = Option.none →
      PropertyParser.mpv_data_to_playlist_entry m
        = .ok (PropertyParser.PlaylistEntry.mk 0 fn Option.none false)) := by
  refine ⟨?_, ?_, ?_, ?_, ?_, ?_, ?_, ?_, ?_, ?_, ?_, ?_, ?_, ?_⟩
  · intro m h
    rw [MessageParser.json_map_to_playlist_entry, h]
  · intro m v h hv
    rw [MessageParser.json_map_to_playlist_entry, h]
    cases v <;> first | rfl | simp [Value.isString] at hv
  · intro m fn hfn ht
    rw [MessageParser.json_map_to_playlist_entry, hfn]
    dsimp only
    rw [ht]
  · intro m fn v hfn ht hv
    rw [MessageParser.json_map_to_playlist_entry, hfn]
    dsimp only
    rw [ht]
    cases v <;> first | rfl | simp [Value.isString] at hv
  · intro m fn t hfn ht hc
    rw [MessageParser.json_map_to_playlist_entry, hfn]
    dsimp only
    rw [ht]
    dsimp only
    rw [hc]
  · intro m fn t v hfn ht hc hv
    rw [MessageParser.json_map_to_playlist_entry, hfn]
    dsimp only
    rw [ht]
    dsimp only
    rw [hc]
    cases v <;> first | rfl | simp [Value.isBool] at hv
  · intro m h
    rw [PropertyParser.mpv_data_to_playlist_entry, h]
  · intro m v h hv
    rw [PropertyParser.mpv_data_to_playlist_entry, h]
    cases v <;> first | rfl | simp [MpvDataType.isString] at hv
  · intro m fn v hfn ht hv
    rw [PropertyParser.mpv_data_to_playlist_entry, hfn]
    dsimp only
    rw [ht]
    cases v <;> first | rfl | simp [MpvDataType.isString] at hv
  · intro m fn t v hfn ht hc hv
    rw [PropertyParser.mpv_data_to_playlist_entry, hfn]
    dsimp only
    rw [ht]
    dsimp only
    rw [PropertyParser.mpv_data_to_playlist_entry.withTitle, hc]
    cases v <;> first | rfl | simp [MpvDataType.isBool] at hv
  · intro m fn v hfn ht hc hv
    rw [PropertyParser.mpv_data_to_playlist_entry, hfn]
    dsimp only
    rw [ht]
    dsimp only
    rw [PropertyParser.mpv_data_to_playlist_entry.withTitle, hc]
    cases v <;> first | rfl | simp [MpvDataType.isBool] at hv
  · intro m fn t hfn ht hc
    rw [PropertyParser.mpv_data_to_playlist_entry, hfn]
    dsimp only
    rw [ht]
    dsimp only
    rw [PropertyParser.mpv_data_to_playlist_entry.withTitle, hc]
  · intro m fn c hfn ht hc
    rw [PropertyParser.mpv_data_to_playlist_entry, hfn]
    dsimp only
    rw [ht]
    dsimp only
    rw [PropertyParser.mpv_data_to_playlist_entry.withTitle, hc]
  · intro m fn hfn ht hc
    rw [PropertyParser.mpv_data_to_playlist_entry, hfn]
    dsimp only
    rw [ht]
    dsimp only
    rw [PropertyParser.mpv_data_to_playlist_entry.withTitle, hc]

/-- C5 witness: the amended statement applied on concrete maps: a missing
title fails in the JSON-level parser, a wrong-type current fails in both
parsers, a missing title with a present current decodes to a None title,
and a missing current succeeds with false in the dynamic-value parser. -/
theorem playlist_entry_required_fields_witness :
    MessageParser.json_map_to_playlist_entry
      [("filename", Value.str "f"), ("current", Value.bool true)]
      = .error .missingMpvData
    ∧ MessageParser.json_map_to_playlist_entry
      [("filename", Value.str "f"), ("title", Value.str "t"),
        ("current", Value.str "x")]
      = .error (.valueContainsUnexpectedType "bool" (Value.str "x"))
    ∧ PropertyParser.mpv_data_to_playlist_entry
      [("filename", MpvDataType.str "f"), ("title", MpvDataType.str "t"),
        ("current", MpvDataType.str "x")]
      = .error (.dataContainsUnexpectedType "bool" (MpvDataType.str "x"))
    ∧ PropertyParser.mpv_data_to_playlist_entry
      [("filename", MpvDataType.str "f"), ("current", MpvDataType.bool true)]
      = .ok (PropertyParser.PlaylistEntry.mk 0 "f" Option.none true)
    ∧ PropertyParser.mpv_data_to_playlist_entry
      [("filename", MpvDataType.str "f"), ("title", MpvDataType.str "t")]
      = .ok (PropertyParser.PlaylistEntry.mk 0 "f" (some "t") false) :=
  ⟨playlist_entry_required_fields_characterization.2.2.1
      [("filename", Value.str "f"), ("current", Value.bool true)] "f" rfl rfl,
    playlist_entry_required_fields_characterization.2.2.2.2.2.1
      [("filename", Value.str "f"), ("title", Value.str "t"),
        ("current", Value.str "x")] "f" "t" (Value.str "x") rfl rfl rfl rfl,
    playlist_entry_required_fields_characterization.2.2.2.2.2.2.2.2.2.1
      [("filename", MpvDataType.str "f"), ("title", MpvDataType.str "t"),
        ("current", MpvDataType.str "x")] "f" "t" (MpvDataType.str "x")
      rfl rfl rfl rfl,
    playlist_entry_required_fields_characterization.2.2.2.2.2.2.2.2.2.2.2.2.1
      [("filename", MpvDataType.str "f"), ("current", MpvDataType.bool true)]
      "f" true rfl rfl rfl,
    playlist_entry_required_fields_characterization.2.2.2.2.2.2.2.2.2.2.2.1
      [("filename", MpvDataType.str "f"), ("title", MpvDataType.str "t")]
      "f" "t" rfl rfl rfl⟩

/-- Helper for C6: the index-passing playlist conversion of
message_parser.rs assigns consecutive ids starting at its start index. -/
theorem json_array_to_playlist_from_ids (array : List Value) :
    ∀ k es, MessageParser.json_array_to_playlist_from k array = .ok es →
      es.map PlaylistEntry.id = List.range' k es.length
      ∧ es.length = array.length := by
  induction array with
  | nil =>
    intro k es h
    rw [MessageParser.json_array_to_playlist_from] at h
    injection h with h'
    subst h'
    simp [List.range']
  | cons v vs ih =>
    intro k es h
    rw [MessageParser.json_array_to_playlist_from] at h
    cases hel : MessageParser.playlist_elem v with
    | error e => rw [hel] at h; cases h
    | ok entry =>
      rw [hel] at h
      cases hrec : MessageParser.json_array_to_playlist_from (k + 1) vs with
      | error e => rw [hrec] at h; cases h
      | ok rest =>
        rw [hrec] at h
        injection h with h'
        subst h'
        obtain ⟨h1, h2⟩ := ih (k + 1) rest hrec
        constructor
        · simp only [List.map_cons, List.length_cons, List.range'_succ]
          rw [h1]
        · simp [h2]

/-- Helper for C6: the index-passing playlist conversion of
property_parser.rs assigns consecutive ids starting at its start index. -/
theorem mpv_array_to_playlist_from_ids (array : List MpvDataType) :
    ∀ k es, PropertyParser.mpv_array_to_playlist_from k array = .ok es →
      es.map PropertyParser.PlaylistEntry.id = List.range' k es.length
      ∧ es.length = array.length := by
  induction array with
  | nil =>
    intro k es h
    rw [PropertyParser.mpv_array_to_playlist_from] at h
    injection h with h'
    subst h'
    simp [List.range']
  | cons v vs ih =>
    intro k es h
    rw [PropertyParser.mpv_array_to_playlist_from] at h
    cases hel : PropertyParser.playlist_elem v with
    | error e => rw [hel] at h; cases h
    | ok entry =>
      rw [hel] at h
      cases hrec : PropertyParser.mpv_array_to_playlist_from (k + 1) vs with
      | error e => rw [hrec] at h; cases h
      | ok rest =>
        rw [hrec] at h
        injection h with h'
        subst h'
        obtain ⟨h1, h2⟩ := ih (k + 1) rest hrec
        constructor
        · simp only [List.map_cons, List.length_cons, List.range'_succ]
          rw [h1]
        · simp [h2]

/-- C6: in both playlist decoders, a successful decode yields entries whose
stored ids are exactly the zero-based positions 0, 1, 2, ... in array
order, one entry per array element; no protocol-provided identifier is
used. -/
theorem playlist_ids_are_ordinal_positions :
    (∀ array es, MessageParser.json_array_to_playlist array = .ok es →
      es.map PlaylistEntry.id = List.range es.length ∧ es.length = array.length)
    ∧ (∀ array es, PropertyParser.mpv_array_to_playlist array = .ok es →
      es.map PropertyParser.PlaylistEntry.id = List.range es.length
      ∧ es.length = array.length) := by
  constructor
  · intro array es h
    rw [MessageParser.json_array_to_playlist] at h
    obtain ⟨h1, h2⟩ := json_array_to_playlist_from_ids array 0 es h
    exact ⟨by rw [List.range_eq_range']; exact h1, h2⟩
  · intro array es h
    rw [PropertyParser.mpv_array_to_playlist] at h
    obtain ⟨h1, h2⟩ := mpv_array_to_playlist_from_ids array 0 es h
    exact ⟨by rw [List.range_eq_range']; exact h1, h2⟩

/-- C6 witness: decoding the two-element playlist array of spec section 8
yields entries with ordinal ids 0 and 1 in array order. -/
theorem playlist_ids_are_ordinal_positions_witness :
    [PlaylistEntry.mk 0 "file1" "title1" true,
      PlaylistEntry.mk 1 "file2" "title2" false].map PlaylistEntry.id
      = List.range 2 :=
  (playlist_ids_are_ordinal_positions.1
    [Value.obj [("filename", Value.str "file1"), ("title", Value.str "title1"),
      ("current", Value.bool true)],
     Value.obj [("filename", Value.str "file2"), ("title", Value.str "title2"),
      ("current", Value.bool false)]]
    [PlaylistEntry.mk 0 "file1" "title1" true,
      PlaylistEntry.mk 1 "file2" "title2" false] rfl).1

/-- Helper for C7: a successful array decode relates input and output
elementwise, in order. -/
theorem json_array_to_vec_forall2 (xs : List Value) :
    ∀ ds, MessageParser.json_array_to_vec xs = .ok ds →
      List.Forall₂ (fun x d => MessageParser.json_to_value x = .ok d) xs ds := by
  induction xs with
  | nil =>
    intro ds h
    rw [MessageParser.json_array_to_vec] at h
    injection h with h'
    subst h'
    exact List.Forall₂.nil
  | cons v vs ih =>
    intro ds h
    rw [MessageParser.json_array_to_vec] at h
    cases hv : MessageParser.json_to_value v with
    | error e => rw [hv] at h; cases h
    | ok x =>
      rw [hv] at h
      cases hrec : MessageParser.json_array_to_vec vs with
      | error e => rw [hrec] at h; cases h
      | ok ys =>
        rw [hrec] at h
        injection h with h'
        subst h'
        exact List.Forall₂.cons hv (ih ys hrec)

/-- C7: decoding a JSON scalar representable in the dynamic model (bool,
string, float-stored number, null, the number -1) succeeds and re-encoding
the result gives back exactly the input; decoding a JSON array succeeds
elementwise in order, so element order and content are preserved
recursively. -/
theorem scalar_roundtrip_and_array_order :
    (∀ j, isScalarRepresentable j = true →
      ∃ d, MessageParser.json_to_value j = .ok d ∧ encode_scalar d = some j)
    ∧ (∀ xs ds, MessageParser.json_to_value (.arr xs) = .ok (.array ds) →
      List.Forall₂ (fun x d => MessageParser.json_to_value x = .ok d) xs ds) := by
  constructor
  · intro j hj
    cases j with
    | null => exact ⟨.null, rfl, rfl⟩
    | bool b => exact ⟨.bool b, rfl, rfl⟩
    | str s => exact ⟨.str s, rfl, rfl⟩
    | number n =>
      cases n with
      | posInt k => simp [isScalarRepresentable] at hj
      | negInt m =>
        cases m with
        | zero => exact ⟨.minusOne, rfl, rfl⟩
        | succ m' => simp [isScalarRepresentable] at hj
      | float f => exact ⟨.double f, rfl, rfl⟩
    | arr xs => simp [isScalarRepresentable] at hj
    | obj kvs => simp [isScalarRepresentable] at hj
  · intro xs ds h
    rw [MessageParser.json_to_value] at h
    cases harr : MessageParser.json_array_to_vec xs with
    | error e => rw [harr] at h; cases h
    | ok ys =>
      rw [harr] at h
      injection h with h'
      injection h' with h''
      subst h''
      exact json_array_to_vec_forall2 xs _ harr

/-- C7 witness: the array part applied on the one-element array containing
true, whose decode is computed by rfl. -/
theorem scalar_roundtrip_witness :
    List.Forall₂ (fun x d => MessageParser.json_to_value x = .ok d)
      [Value.bool true] [MpvDataType.bool true] :=
  scalar_roundtrip_and_array_order.2 [Value.bool true] [MpvDataType.bool true] rfl

mutual

/-- Helper for C4: decoding never fails on a value containing no number. -/
theorem json_to_value_total_of_numberFree (v : Value) (h : numberFree v = true) :
    isOkE (MessageParser.json_to_value v) = true := by
  cases v with
  | null => rfl
  | bool b => rfl
  | str s => rfl
  | number n => simp [numberFree] at h
  | arr xs =>
    rw [numberFree] at h
    have hs := json_array_to_vec_total_of_numberFree xs h
    rw [MessageParser.json_to_value]
    cases harr : MessageParser.json_array_to_vec xs with
    | error e => rw [harr] at hs; simp [isOkE] at hs
    | ok ys => rfl
  | obj kvs =>
    rw [numberFree] at h
    have hs := json_map_to_hashmap_total_of_numberFree kvs h
    rw [MessageParser.json_to_value]
    cases hm : MessageParser.json_map_to_hashmap kvs with
    | error e => rw [hm] at hs; simp [isOkE] at hs
    | ok m => rfl

/-- Helper for C4, list version. -/
theorem json_array_to_vec_total_of_numberFree (vs : List Value)
    (h : numberFreeList vs = true) :
    isOkE (MessageParser.json_array_to_vec vs) = true := by
  cases vs with
  | nil => rfl
  | cons v rest =>
    rw [numberFreeList, Bool.and_eq_true] at h
    have hv := json_to_value_total_of_numberFree v h.1
    have hr := json_array_to_vec_total_of_numberFree rest h.2
    rw [MessageParser.json_array_to_vec]
    cases h1 : MessageParser.json_to_value v with
    | error e => rw [h1] at hv; simp [isOkE] at hv
    | ok x =>
      cases h2 : MessageParser.json_array_to_vec rest with
      | error e => rw [h2] at hr; simp [isOkE] at hr
      | ok xs => rfl

/-- Helper for C4, association-list version. -/
theorem json_map_to_hashmap_total_of_numberFree (kvs : List (String × Value))
    (h : numberFreeKVs kvs = true) :
    isOkE (MessageParser.json_map_to_hashmap kvs) = true := by
  cases kvs with
  | nil => rfl
  | cons kv rest =>
    obtain ⟨k, v⟩ := kv
    rw [numberFreeKVs, Bool.and_eq_true] at h
    have hv := json_to_value_total_of_numberFree v h.1
    have hr := json_map_to_hashmap_total_of_numberFree rest h.2
    rw [MessageParser.json_map_to_hashmap]
    cases h1 : MessageParser.json_to_value v with
    | error e => rw [h1] at hv; simp [isOkE] at hv
    | ok x =>
      cases h2 : MessageParser.json_map_to_hashmap rest with
      | error e => rw [h2] at hr; simp [isOkE] at hr
      | ok m => rfl

end

/-- Helper for C4: on numbers, decoding fails exactly on the negative
integers other than -1. -/
theorem json_number_decode_cases (n : JNumber) :
    isOkE (MessageParser.json_to_value (.number n)) = false
      ↔ ∃ m, n = .negInt m ∧ m ≠ 0 := by
  cases n with
  | posInt k =>
    have hne : JNumber.as_i64 (.posInt k) ≠ some (-1) := by
      rw [JNumber.as_i64]
      split
      · intro hc
        injection hc with hc'
        rw [Int.ofNat_eq_natCast] at hc'
        omega
      · intro hc
        cases hc
    rw [MessageParser.json_to_value, if_neg hne]
    simp [JNumber.as_u64, isOkE]
  | negInt m =>
    cases m with
    | zero =>
      rw [show MessageParser.json_to_value (.number (.negInt 0)) = .ok .minusOne from rfl]
      simp [isOkE]
    | succ m' =>
      have hne : JNumber.as_i64 (.negInt (m' + 1)) ≠ some (-1) := by
        rw [JNumber.as_i64]
        intro hc
        injection hc with hc'
        rw [Int.ofNat_eq_natCast] at hc'
        omega
      rw [MessageParser.json_to_value, if_neg hne]
      dsimp only [JNumber.as_u64, JNumber.floatPayload]
      simp [isOkE]
  | float f =>
    have hf : MessageParser.json_to_value (.number (.float f)) = .ok (.double f) := rfl
    rw [hf]
    simp [isOkE]

/-- C4 counterexample: the JSON number -2 is exactly representable as a
finite double (so the claim says it must decode), yet `json_to_value`
fails on it with the unsupported-numeric-type error: serde_json stores -2
as an i64, and the code accepts an i64 only when it equals -1. -/
theorem negative_two_fails_decode_despite_double_representable :
    specNumberDecodable (JNumber.negInt 1) = true
    ∧ MessageParser.json_to_value (Value.number (JNumber.negInt 1))
      = .error (.valueContainsUnexpectedType "i64, u64, or f64"
          (Value.number (JNumber.negInt 1))) := by
  exact ⟨rfl, rfl⟩

/-- C4 amended: decoding is total on number-free values; on a number it
fails (with the unsupported-numeric-type error) exactly when the number is
a negative integer other than -1; the number -1 decodes to the MinusOne
sentinel, which is distinct from Null. -/
theorem json_number_decode_characterization :
    (∀ v, numberFree v = true → isOkE (MessageParser.json_to_value v) = true)
    ∧ (∀ n, isOkE (MessageParser.json_to_value (.number n)) = false
        ↔ ∃ m, n = .negInt m ∧ m ≠ 0)
    ∧ MessageParser.json_to_value (.number (.negInt 0)) = .ok .minusOne
    ∧ MpvDataType.minusOne ≠ MpvDataType.null :=
  ⟨json_to_value_total_of_numberFree, json_number_decode_cases, rfl,
    fun h => MpvDataType.noConfusion h⟩

/-- C4 witness: the amended statement applied on the number-free value
"x" and on the number -2. -/
theorem json_number_decode_characterization_witness :
    isOkE (MessageParser.json_to_value (Value.str "x")) = true
    ∧ isOkE (MessageParser.json_to_value (Value.number (JNumber.negInt 1))) = false :=
  ⟨json_number_decode_characterization.1 (Value.str "x") rfl,
    (json_number_decode_characterization.2.1 (JNumber.negInt 1)).mpr
      ⟨1, rfl, by decide⟩⟩

/-- Helper for C8: once the actor has returned, every queued command gets
the channel-closed error and the actor never comes back. -/
theorem runActor_dead (io : CoreApi.MpvIpcCommand → Except MpvError (Option Value))
    (cmds : List CoreApi.MpvIpcCommand) :
    CoreApi.runActor io false cmds
      = (cmds.map (fun _ => .error (.internalConnectionError "channel closed")), false) := by
  induction cmds with
  | nil => rfl
  | cons c rest ih => rw [CoreApi.runActor, ih]; rfl

/-- Helper for C8: dropping past a marked element of a mapped list. -/
theorem map_drop_past_elem {α β : Type} (f : α → β) (pre : List α) (x : α)
    (post : List α) :
    ((pre ++ x :: post).map f).drop (pre.length + 1) = post.map f := by
  induction pre with
  | nil => simp
  | cons c pre' ih => simpa using ih

/-- C8: once any handle clone submits `Exit` (as `Mpv::disconnect` does),
the actor terminates: the `Exit` command itself is answered with
success-of-nothing, every command submitted after it on any clone is
answered with the channel-closed internal connection error rather than
ever succeeding, and the actor (hence the event broadcast sender, whose
drop every subscriber observes as its stream ending) is no longer alive. -/
theorem exit_terminates_actor_and_fails_later_commands
    (io : CoreApi.MpvIpcCommand → Except MpvError (Option Value))
    (pre post : List CoreApi.MpvIpcCommand) :
    CoreApi.actorAliveAfter io (pre ++ CoreApi.MpvIpcCommand.exit :: post) = false
    ∧ (CoreApi.actorReplies io (pre ++ CoreApi.MpvIpcCommand.exit :: post)).drop
        (pre.length + 1)
      = post.map (fun _ => .error (.internalConnectionError "channel closed")) := by
  rw [CoreApi.actorAliveAfter, CoreApi.actorReplies]
  induction pre with
  | nil =>
    rw [List.nil_append, CoreApi.runActor]
    rw [if_pos (show CoreApi.MpvIpcCommand.exit.isExit = true from rfl)]
    rw [runActor_dead io post]
    exact ⟨rfl, by simp⟩
  | cons c pre' ih =>
    rw [List.cons_append, CoreApi.runActor]
    by_cases hc : c.isExit = true
    · rw [if_pos hc, runActor_dead io (pre' ++ CoreApi.MpvIpcCommand.exit :: post)]
      refine ⟨rfl, ?_⟩
      simp only [List.length_cons, List.drop_succ_cons]
      exact map_drop_past_elem _ pre' _ post
    · rw [if_neg hc]
      exact ⟨ih.1, by simpa using ih.2⟩

end Mpvipc
